import Mathlib

/-!
Verification of the tda-webhooks-tradingview repository against its
natural-language specification.  The webhook application (tda-api/app.py)
and the trading script (trade.py) are embedded directly from their source.
The tda library itself (auth, client, utils) is not shipped in this
repository snapshot; only its test suites are.  Definitions for those parts
are modelled from the specification and checked against the concrete
expectations recorded in the test suites under site-packages/tests.
-/

namespace TdaWebhooks

/-- JSON-compatible values: the data model shared by webhook request bodies,
token records, and HTTP query parameters throughout the system. -/
inductive JVal where
  | null : JVal
  | bool (b : Bool) : JVal
  | num (n : Int) : JVal
  | str (s : String) : JVal
  | arr (elems : List JVal) : JVal
  | obj (fields : List (String × JVal)) : JVal

/-- JSON object: an association list of string keys to values, mirroring a
Python dict as produced by json parsing. -/
abbrev JObj := List (String × JVal)

/-- Association-list lookup, first match wins, mirroring Python dict key
lookup on the embedded objects. -/
def jlookup {α : Type} : List (String × α) → String → Option α
  | [], _ => none
  | (k, v) :: rest, key => if key = k then some v else jlookup rest key

/-- Membership test for a key, mirroring the Python `key in dict` check. -/
def hasKey {α : Type} (t : List (String × α)) (k : String) : Bool :=
  (jlookup t k).isSome

/-- Python inequality of a JSON value against a string: values of a
different runtime type compare unequal, strings compare by content.  This is
the comparison performed by `webhook_message["passphrase"] != config.passphrase`
in app.py, where the configured passphrase is a string. -/
def jvalNeStr (v : JVal) (s : String) : Bool :=
  match v with
  | JVal.str t => t != s
  | _ => true

/-! ## Webhook application (src/tda-api/app.py) -/

/-- Static configuration read by the webhook application from its
chalicelib config module: api_key, token_path, account_id, passphrase. -/
structure AppConfig where
  api_key : String
  token_path : String
  account_id : Nat
  passphrase : String

/-- Outcome of one invocation of the option_order route handler:
either a structured payload is returned to the caller, or an uncaught
KeyError escapes, or an order is placed via the client followed by the
acknowledgement payload. -/
inductive RouteResult where
  | payload (body : JObj) : RouteResult
  | keyError (key : String) : RouteResult
  | placed (accountId : Nat) (order : JObj) (ack : JObj) : RouteResult

/-- Error payload returned when the literal key `passphase` is absent from
the webhook body (app.py lines 35-39). -/
def unauthorizedPayload : JObj :=
  [("code", JVal.str "error"), ("message", JVal.str "Unauthorized, no passphrase")]

/-- Error payload returned when the `passphrase` field does not equal the
configured shared secret (app.py lines 41-45). -/
def invalidPassphrasePayload : JObj :=
  [("code", JVal.str "error"), ("message", JVal.str "Invalid passphrase")]

/-- Fixed-shape single-leg buy-to-open option limit order built by the
option_order handler (app.py lines 47-64). -/
def buildOrderSpec (price quantity symbol : JVal) : JObj :=
  [("complexOrderStrategyType", JVal.str "NONE"),
   ("orderType", JVal.str "LIMIT"),
   ("session", JVal.str "NORMAL"),
   ("price", price),
   ("duration", JVal.str "DAY"),
   ("orderStrategyType", JVal.str "SINGLE"),
   ("orderLegCollection", JVal.arr [JVal.obj
      [("instruction", JVal.str "BUY_TO_OPEN"),
       ("quantity", quantity),
       ("instrument", JVal.obj
          [("symbol", symbol), ("assetType", JVal.str "OPTION")])]])]

/-- Embedding of the option_order route handler (app.py lines 29-70).
The handler first checks for the literal, misspelled key `passphase`; it then
reads the differently spelled `passphrase` key (a KeyError if absent) and
compares it against the configured secret; only then does it build the order
spec (KeyError on any missing field) and place the order. -/
def option_order (cfg : AppConfig) (body : JObj) : RouteResult :=
  if hasKey body "passphase" = false then
    RouteResult.payload unauthorizedPayload
  else
    match jlookup body "passphrase" with
    | none => RouteResult.keyError "passphrase"
    | some pv =>
      if jvalNeStr pv cfg.passphrase then
        RouteResult.payload invalidPassphrasePayload
      else
        match jlookup body "price" with
        | none => RouteResult.keyError "price"
        | some price =>
          match jlookup body "quantity" with
          | none => RouteResult.keyError "quantity"
          | some quantity =>
            match jlookup body "symbol" with
            | none => RouteResult.keyError "symbol"
            | some symbol =>
              RouteResult.placed cfg.account_id
                (buildOrderSpec price quantity symbol)
                [("code", JVal.str "ok")]

/-! ## Client construction at startup (src/tda-api/app.py lines 10-14 and
src/trade.py lines 7-13) -/

/-- Where the client credentials came from: an existing token file, or a
fresh browser login flow. -/
inductive ClientSource where
  | tokenFile : ClientSource
  | loginFlow : ClientSource
deriving DecidableEq

/-- Errors surfaced by the authentication layer. -/
inductive AuthError where
  | fileNotFound (path : String) : AuthError
deriving DecidableEq

/-- Configured REST client as produced by the authentication layer. -/
structure TdaClient where
  api_key : String
  source : ClientSource

/-- File system state visible at startup: maps a path to the token record
stored there, if any. -/
def FileSystem : Type := String → Option JVal

/-- Modelled from the spec: `auth.client_from_token_file` (tda/auth.py is
absent from this snapshot) reads the token at the given path and fails with
a Not-Found error if the file is absent (spec section 4.4); on success it
returns a configured client. -/
def client_from_token_file (fs : FileSystem) (path : String) (apiKey : String) :
    Except AuthError TdaClient :=
  match fs path with
  | none => Except.error (AuthError.fileNotFound path)
  | some _ => Except.ok ⟨apiKey, ClientSource.tokenFile⟩

/-- Modelled from the spec: `auth.client_from_login_flow` (tda/auth.py is
absent from this snapshot) drives a browser login flow and returns a
configured client; the browser interaction itself is outside this model. -/
def client_from_login_flow (apiKey : String) : TdaClient :=
  ⟨apiKey, ClientSource.loginFlow⟩

/-- Module-level state of the webhook application after a successful import:
the client constructed once at import time and the three routes it serves. -/
structure AppModule where
  client : TdaClient
  routes : List String

/-- Embedding of the webhook application module import (app.py lines 10-14):
the Client is constructed exactly once at import time by reading the token
file, with no exception handling and no fallback; the three routes exist only
if that construction succeeds. -/
def app_init (fs : FileSystem) (cfg : AppConfig) : Except AuthError AppModule :=
  match client_from_token_file fs cfg.token_path cfg.api_key with
  | Except.error e => Except.error e
  | Except.ok c =>
      Except.ok ⟨c, ["/quote/{symbol}", "/option/chain/{symbol}", "/option/order"]⟩

/-- Routes the webhook application can serve for a given startup state:
none at all when the module import fails. -/
def servable_routes (fs : FileSystem) (cfg : AppConfig) : List String :=
  match app_init fs cfg with
  | Except.error _ => []
  | Except.ok m => m.routes

/-- Embedding of the trading script startup (trade.py lines 7-13): it
attempts to load a client from the token file and, on the Not-Found error,
falls back to a browser login flow. -/
def trade_init (fs : FileSystem) (cfg : AppConfig) : TdaClient :=
  match client_from_token_file fs cfg.token_path cfg.api_key with
  | Except.ok c => c
  | Except.error (AuthError.fileNotFound _) => client_from_login_flow cfg.api_key

/-! ## Utilities (tda/utils.py, modelled from the spec; exercised by
site-packages/tests/utils_test.py) -/

/-- Domain errors raised by the Utils helper, distinct from transport
errors. -/
inductive UtilsError where
  | unsuccessfulOrder (msg : String) : UtilsError
  | accountIdMismatch (msg : String) : UtilsError
  | valueError : UtilsError
deriving DecidableEq

/-- Account ID as held by a Utils instance: Python allows either an integer
or a numeric string. -/
inductive AcctId where
  | int (n : Nat) : AcctId
  | str (s : String) : AcctId
deriving DecidableEq

/-- Splits a character list at every occurrence of the separator character,
mirroring the path-component split used to match the Location header. -/
def splitOnChar (c : Char) : List Char → List (List Char)
  | [] => [[]]
  | x :: xs =>
    match splitOnChar c xs with
    | [] => [[]]
    | g :: gs => if x = c then [] :: g :: gs else (x :: g) :: gs

/-- Accumulator loop for decimal parsing. -/
def digitsToNatAux : List Char → Nat → Option Nat
  | [], acc => some acc
  | c :: cs, acc =>
    if c.isDigit then digitsToNatAux cs (acc * 10 + (c.toNat - 48)) else none

/-- Parses a nonempty all-digit character list as a decimal number,
mirroring the regex digit groups and the Python `int(...)` conversion. -/
def digitsToNat : List Char → Option Nat
  | [] => none
  | c :: cs => digitsToNatAux (c :: cs) 0

/-- Numeric value of an account ID, mirroring the Python `int(...)`
conversion that treats string and integer forms as equivalent. -/
def AcctId.toNatOpt : AcctId → Option Nat
  | AcctId.int n => some n
  | AcctId.str s => digitsToNat s.data

/-- Utils helper state: the account ID it was constructed with. -/
structure Utils where
  account_id : AcctId

/-- HTTP response as seen by `extract_order_id`: a status code and a header
mapping. -/
structure HttpResponse where
  status_code : Nat
  headers : List (String × String)

/-- Modelled from the spec: the Location header is matched against the
pattern `.../accounts/share_accountId_brace/orders/share_orderId_brace`
(spec section 4.3), yielding the embedded account ID and order ID when the
last path components have that shape with numeric IDs. -/
def parseOrderLocation (loc : String) : Option (Nat × Nat) :=
  match (splitOnChar '/' loc.data).reverse with
  | oid :: ordsWord :: aid :: acctsWord :: _ =>
    if ordsWord = "orders".data ∧ acctsWord = "accounts".data then
      match digitsToNat aid, digitsToNat oid with
      | some a, some o => some (a, o)
      | _, _ => none
    else none
  | _ => none

/-- Modelled from the spec: `Utils.extract_order_id` (tda/utils.py is absent
from this snapshot; contract in spec section 4.3, exercised by
tests/utils_test.py lines 53-122).  Non-200/201 responses fail with
Unsuccessful-Order; a missing or non-matching Location header yields no
value; a Location whose embedded account ID differs numerically from the
constructed account ID fails with Account-ID-Mismatch; otherwise the parsed
integer order ID is returned. -/
def extract_order_id (u : Utils) (r : HttpResponse) :
    Except UtilsError (Option Nat) :=
  if r.status_code ≠ 200 ∧ r.status_code ≠ 201 then
    Except.error (UtilsError.unsuccessfulOrder "order not successful")
  else
    match jlookup r.headers "Location" with
    | none => Except.ok none
    | some loc =>
      match parseOrderLocation loc with
      | none => Except.ok none
      | some (acct, oid) =>
        match u.account_id.toNatOpt with
        | none => Except.error UtilsError.valueError
        | some own =>
          if acct ≠ own then
            Except.error
              (UtilsError.accountIdMismatch "order request account ID != Utils.account_id")
          else Except.ok (some oid)

/-! ## API key normalization (tda/auth.py, modelled from the spec; exercised
by tests/auth_test.py lines 913-946) -/

/-- Log line emitted by the authentication layer, in emission order. -/
inductive LogEvent where
  | warning (msg : String) : LogEvent
  | info (msg : String) : LogEvent
deriving DecidableEq

/-- Suffix test on strings by comparing the trailing characters, used for
the fixed vendor suffix check. -/
def endsWithStr (k s : String) : Bool :=
  k.data.drop (k.data.length - s.data.length) == s.data

/-- Joins character-list groups with the given separator, the inverse of
`splitOnChar`, used to reconstruct a nonstandard suffix for the warning. -/
def joinChar (c : Char) : List (List Char) → List Char
  | [] => []
  | [g] => g
  | g :: g2 :: gs => g ++ c :: joinChar c (g2 :: gs)

/-- Modelled from the spec: `auth._normalize_api_key` (tda/auth.py is absent
from this snapshot; spec sections 3 and 6, exercised by
tests/auth_test.py NormalizeAPIKeyTest).  A key already ending in
`@AMER.OAUTHAP` is returned unchanged with no log output; a key with no
suffix has the vendor suffix appended with an info log; a key with a
different suffix gets a warning about the nonstandard suffix, then the info
log, and the suffix is replaced. -/
def normalize_api_key (k : String) : String × List LogEvent :=
  if endsWithStr k "@AMER.OAUTHAP" then (k, [])
  else
    match splitOnChar '@' k.data with
    | [] => (k ++ "@AMER.OAUTHAP", [LogEvent.info "Appending @AMER.OAUTHAP to API key"])
    | [_] => (k ++ "@AMER.OAUTHAP", [LogEvent.info "Appending @AMER.OAUTHAP to API key"])
    | base :: g :: gs =>
        (String.mk base ++ "@AMER.OAUTHAP",
         [LogEvent.warning ("API key ends in nonstandard suffix \""
            ++ String.mk (joinChar '@' (g :: gs)) ++ "\". Ignoring"),
          LogEvent.info "Appending @AMER.OAUTHAP to API key"])

/-! ## Token metadata classification and persistence (tda/auth.py, modelled
from the spec; exercised by tests/auth_test.py lines 79-99, 160-230 and
877-910) -/

/-- Recognizability test for a stored creation timestamp: an integer number
of seconds, or an explicit null meaning absent (spec sections 3 and 4.4). -/
def tsRecognizable : JVal → Bool
  | JVal.num _ => true
  | JVal.null => true
  | _ => false

/-- Modelled from the spec: a loaded record is metadata-aware when it has
both a `creation_timestamp` key holding a recognizable timestamp value and a
`token` key (spec section 4.4). -/
def is_metadata_aware_token (t : JObj) : Bool :=
  (match jlookup t "creation_timestamp" with
   | some v => tsRecognizable v
   | none => false) && hasKey t "token"

/-- Modelled from the spec: a loaded record is legacy when it is a bare
token record carrying no `creation_timestamp` wrapper key (spec section
4.4). -/
def is_legacy_token (t : JObj) : Bool :=
  !(hasKey t "creation_timestamp")

/-- Modelled from the spec: the possibly absent creation timestamp exposed
for a loaded record; absent for legacy and unrecognized shapes. -/
def token_creation_timestamp (t : JObj) : Option Int :=
  if is_metadata_aware_token t then
    match jlookup t "creation_timestamp" with
    | some (JVal.num n) => some n
    | _ => none
  else none

/-- Token metadata carried alongside a session: the possibly absent creation
timestamp recorded when the token was loaded or first obtained. -/
structure TokenMetadata where
  creation_timestamp : Option Int
deriving DecidableEq

/-- Modelled from the spec: `TokenMetadata.from_loaded_token` captures the
(possibly absent) creation timestamp of the loaded record. -/
def from_loaded_token (t : JObj) : TokenMetadata :=
  ⟨token_creation_timestamp t⟩

/-- Modelled from the spec: the update callback installed by
client_from_token_file and client_from_access_functions persists every
refreshed token as a metadata-aware record wrapping the new token, carrying
the creation timestamp captured at load (null when the load was legacy). -/
def wrapped_token_write (m : TokenMetadata) (newToken : JVal) : JObj :=
  [("creation_timestamp",
     match m.creation_timestamp with
     | some n => JVal.num n
     | none => JVal.null),
   ("token", newToken)]

/-- Record persisted when the session refreshes the token of a client whose
token was loaded from the given record. -/
def update_token_record (loaded : JObj) (newToken : JVal) : JObj :=
  wrapped_token_write (from_loaded_token loaded) newToken

/-! ## Enum enforcement (tda/utils.py EnumEnforcer, modelled from the spec;
exercised by tests/utils_test.py lines 11-36 and tests/client_test.py
unchecked tests) -/

/-- Validation errors raised by the REST client before any request is
issued. -/
inductive ClientError where
  | invalidParameter (expected : String) : ClientError
  | invalidArgument (msg : String) : ClientError
deriving DecidableEq

/-- Python enumeration type: its defining module, its type name, and its
members mapping member names to underlying wire values. -/
structure PyEnumType where
  module : String
  ename : String
  members : List (String × JVal)

/-- Fully qualified name of the enumeration type. -/
def enumFullName (E : PyEnumType) : String :=
  E.module ++ "." ++ E.ename

/-- Fully qualified name of an example member of the enumeration, used in
the Invalid-Parameter message (format module.EnumType.EXAMPLE_MEMBER). -/
def exampleMemberName (E : PyEnumType) : String :=
  match E.members with
  | [] => enumFullName E
  | (m, _) :: _ => enumFullName E ++ "." ++ m

/-- Argument value passed for an enum-typed parameter: either a raw
string/number, or a member of some enumeration type identified by its fully
qualified type name and member name. -/
inductive ArgVal where
  | raw (v : JVal) : ArgVal
  | member (enumName : String) (memberName : String) : ArgVal

/-- Membership of a value in an enumeration: it must be a member value of
exactly that enumeration type. -/
def isEnumMember (E : PyEnumType) (v : ArgVal) : Bool :=
  match v with
  | ArgVal.member tn mn => (tn == enumFullName E) && hasKey E.members mn
  | ArgVal.raw _ => false

/-- Modelled from the spec: `EnumEnforcer.convert_enum` (tda/utils.py is
absent from this snapshot; spec section 4.1).  With enforcement on, a value
that is not a member of the enumeration fails with an Invalid-Parameter
error naming the fully qualified example member, while a member is converted
to its underlying wire value; with enforcement off, any value is returned
unchanged. -/
def convert_enum (enforce : Bool) (E : PyEnumType) (v : ArgVal) :
    Except ClientError ArgVal :=
  if enforce then
    match v with
    | ArgVal.member tn mn =>
      if tn = enumFullName E then
        match jlookup E.members mn with
        | some w => Except.ok (ArgVal.raw w)
        | none => Except.error (ClientError.invalidParameter (exampleMemberName E))
      else Except.error (ClientError.invalidParameter (exampleMemberName E))
    | ArgVal.raw _ => Except.error (ClientError.invalidParameter (exampleMemberName E))
  else Except.ok v

/-! ## REST client request shaping (tda/client, modelled from the spec;
exercised by tests/client_test.py) -/

/-- Datetime value with second precision, always interpreted as UTC in this
model (matching the utcnow-based defaults of the client). -/
structure DateTime where
  year : Nat
  month : Nat
  day : Nat
  hour : Nat
  minute : Nat
  second : Nat
deriving DecidableEq

/-- Zero-pads a number to two digits. -/
def pad2 (n : Nat) : String :=
  if n < 10 then "0" ++ Nat.repr n else Nat.repr n

/-- Zero-pads a number to four digits. -/
def pad4 (n : Nat) : String :=
  if n < 10 then "000" ++ Nat.repr n
  else if n < 100 then "00" ++ Nat.repr n
  else if n < 1000 then "0" ++ Nat.repr n
  else Nat.repr n

/-- Serialization of a datetime as an ISO-8601 string with the fixed +0000
UTC offset, the wire format of timestamp query parameters. -/
def isoDatetimeFormat (dt : DateTime) : String :=
  pad4 dt.year ++ "-" ++ pad2 dt.month ++ "-" ++ pad2 dt.day ++ "T"
    ++ pad2 dt.hour ++ ":" ++ pad2 dt.minute ++ ":" ++ pad2 dt.second ++ "+0000"

/-- Earliest representable date used by the client as the default lower
date bound. -/
def MIN_DATETIME : DateTime := ⟨1971, 1, 1, 0, 0, 0⟩

/-- Days from the civil epoch 1970-01-01 of a proleptic Gregorian date. -/
def daysFromCivil (y m d : Nat) : Int :=
  let y2 : Int := if m ≤ 2 then (y : Int) - 1 else (y : Int)
  let era : Int := (if 0 ≤ y2 then y2 else y2 - 399) / 400
  let yoe : Int := y2 - era * 400
  let mp : Int := ((m : Int) + 9) % 12
  let doy : Int := (153 * mp + 2) / 5 + (d : Int) - 1
  let doe : Int := yoe * 365 + yoe / 4 - yoe / 100 + doy
  era * 146097 + doe - 719468

/-- Milliseconds since the Unix epoch of a UTC datetime, the wire format of
millisecond timestamp query parameters. -/
def epochMillis (dt : DateTime) : Int :=
  (daysFromCivil dt.year dt.month dt.day * 86400
    + (dt.hour : Int) * 3600 + (dt.minute : Int) * 60 + (dt.second : Int)) * 1000

/-- Base URL of the brokerage REST API. -/
def BASE_URL : String := "https://api.tdameritrade.com"

/-- HTTP request issued through the authenticated session: method, full
URL, and query parameters. -/
structure HttpRequest where
  method : String
  url : String
  params : List (String × JVal)

/-- Comma-joined wire form of a list of values. -/
def joinComma (l : List String) : String :=
  String.intercalate "," l

/-- Modelled from the spec: `Client.get_orders_by_path` (tda/client is
absent from this snapshot; spec section 4.5, exercised by client_test.py
get_orders_by_path tests).  Supplying both status and statuses fails with
Invalid-Argument before any request is built; otherwise fromEnteredTime
defaults to the earliest representable date and toEnteredTime to the current
UTC time, both serialized with the +0000 offset. -/
def get_orders_by_path (now : DateTime) (accountId : Nat)
    (fromEntered toEntered : Option DateTime) (maxResults : Option Nat)
    (status : Option String) (statuses : Option (List String)) :
    Except ClientError HttpRequest :=
  if status.isSome ∧ statuses.isSome then
    Except.error (ClientError.invalidArgument "at most one of status or statuses may be set")
  else
    Except.ok
      { method := "GET"
        url := BASE_URL ++ "/v1/accounts/" ++ Nat.repr accountId ++ "/orders"
        params :=
          [("fromEnteredTime", JVal.str (isoDatetimeFormat (fromEntered.getD MIN_DATETIME))),
           ("toEnteredTime", JVal.str (isoDatetimeFormat (toEntered.getD now)))]
          ++ (match maxResults with
              | some m => [("maxResults", JVal.num m)]
              | none => [])
          ++ (match status, statuses with
              | some s, _ => [("status", JVal.str s)]
              | none, some l => [("status", JVal.str (joinComma l))]
              | none, none => []) }

/-- Modelled from the spec: `Client.get_orders_by_query`, identical to
get_orders_by_path except that it is account-agnostic (spec section 4.5). -/
def get_orders_by_query (now : DateTime)
    (fromEntered toEntered : Option DateTime) (maxResults : Option Nat)
    (status : Option String) (statuses : Option (List String)) :
    Except ClientError HttpRequest :=
  if status.isSome ∧ statuses.isSome then
    Except.error (ClientError.invalidArgument "at most one of status or statuses may be set")
  else
    Except.ok
      { method := "GET"
        url := BASE_URL ++ "/v1/orders"
        params :=
          [("fromEnteredTime", JVal.str (isoDatetimeFormat (fromEntered.getD MIN_DATETIME))),
           ("toEnteredTime", JVal.str (isoDatetimeFormat (toEntered.getD now)))]
          ++ (match maxResults with
              | some m => [("maxResults", JVal.num m)]
              | none => [])
          ++ (match status, statuses with
              | some s, _ => [("status", JVal.str s)]
              | none, some l => [("status", JVal.str (joinComma l))]
              | none, none => []) }

/-- Query parameters of a request-building outcome; empty when validation
failed before a request was built. -/
def requestParams : Except ClientError HttpRequest → List (String × JVal)
  | Except.ok r => r.params
  | Except.error _ => []

/-- Request built by get_price_history for a fixed cadence: apikey, the
period/frequency quadruple, the millisecond date window (startDate
defaulting to the earliest representable date, endDate to now plus seven
days), and needExtendedHoursData only when a non-absent value was
supplied. -/
def mkPriceHistoryRequest (apiKey symbol periodType : String) (period : Nat)
    (frequencyType : String) (frequency : Nat) (now : DateTime)
    (startDt endDt : Option DateTime) (needExt : Option Bool) : HttpRequest :=
  { method := "GET"
    url := BASE_URL ++ "/v1/marketdata/" ++ symbol ++ "/pricehistory"
    params :=
      [("apikey", JVal.str apiKey),
       ("periodType", JVal.str periodType),
       ("period", JVal.num period),
       ("frequencyType", JVal.str frequencyType),
       ("frequency", JVal.num frequency),
       ("startDate", JVal.num (epochMillis (startDt.getD MIN_DATETIME))),
       ("endDate", JVal.num (match endDt with
          | some e => epochMillis e
          | none => epochMillis now + 604800000))]
      ++ (match needExt with
          | some b => [("needExtendedHoursData", JVal.bool b)]
          | none => []) }

/-- Modelled from the spec: convenience wrapper pinning day/1/minute/1
(spec section 4.5 table). -/
def get_price_history_every_minute (apiKey : String) (now : DateTime)
    (symbol : String) (startDt endDt : Option DateTime)
    (needExt : Option Bool) : HttpRequest :=
  mkPriceHistoryRequest apiKey symbol "day" 1 "minute" 1 now startDt endDt needExt

/-- Modelled from the spec: convenience wrapper pinning day/1/minute/5. -/
def get_price_history_every_five_minutes (apiKey : String) (now : DateTime)
    (symbol : String) (startDt endDt : Option DateTime)
    (needExt : Option Bool) : HttpRequest :=
  mkPriceHistoryRequest apiKey symbol "day" 1 "minute" 5 now startDt endDt needExt

/-- Modelled from the spec: convenience wrapper pinning day/1/minute/10. -/
def get_price_history_every_ten_minutes (apiKey : String) (now : DateTime)
    (symbol : String) (startDt endDt : Option DateTime)
    (needExt : Option Bool) : HttpRequest :=
  mkPriceHistoryRequest apiKey symbol "day" 1 "minute" 10 now startDt endDt needExt

/-- Modelled from the spec: convenience wrapper pinning day/1/minute/15. -/
def get_price_history_every_fifteen_minutes (apiKey : String) (now : DateTime)
    (symbol : String) (startDt endDt : Option DateTime)
    (needExt : Option Bool) : HttpRequest :=
  mkPriceHistoryRequest apiKey symbol "day" 1 "minute" 15 now startDt endDt needExt

/-- Modelled from the spec: convenience wrapper pinning day/1/minute/30. -/
def get_price_history_every_thirty_minutes (apiKey : String) (now : DateTime)
    (symbol : String) (startDt endDt : Option DateTime)
    (needExt : Option Bool) : HttpRequest :=
  mkPriceHistoryRequest apiKey symbol "day" 1 "minute" 30 now startDt endDt needExt

/-- Modelled from the spec: convenience wrapper pinning year/20/daily/1. -/
def get_price_history_every_day (apiKey : String) (now : DateTime)
    (symbol : String) (startDt endDt : Option DateTime)
    (needExt : Option Bool) : HttpRequest :=
  mkPriceHistoryRequest apiKey symbol "year" 20 "daily" 1 now startDt endDt needExt

/-- Modelled from the spec: convenience wrapper pinning year/20/weekly/1. -/
def get_price_history_every_week (apiKey : String) (now : DateTime)
    (symbol : String) (startDt endDt : Option DateTime)
    (needExt : Option Bool) : HttpRequest :=
  mkPriceHistoryRequest apiKey symbol "year" 20 "weekly" 1 now startDt endDt needExt

/-- Shape of one price-history convenience wrapper: for every call it pins
exactly the given periodType/period/frequencyType/frequency quadruple,
defaults startDate to the epoch milliseconds of the earliest representable
date and endDate to the epoch milliseconds of now plus seven days unless
overridden, and includes needExtendedHoursData exactly when the caller
supplies a non-absent value. -/
def WrapperShape
    (w : String → DateTime → String → Option DateTime → Option DateTime →
         Option Bool → HttpRequest)
    (periodType : String) (period : Nat)
    (frequencyType : String) (frequency : Nat) : Prop :=
  ∀ apiKey now symbol startDt endDt needExt,
    jlookup (w apiKey now symbol startDt endDt needExt).params "periodType"
        = some (JVal.str periodType)
    ∧ jlookup (w apiKey now symbol startDt endDt needExt).params "period"
        = some (JVal.num period)
    ∧ jlookup (w apiKey now symbol startDt endDt needExt).params "frequencyType"
        = some (JVal.str frequencyType)
    ∧ jlookup (w apiKey now symbol startDt endDt needExt).params "frequency"
        = some (JVal.num frequency)
    ∧ jlookup (w apiKey now symbol startDt endDt needExt).params "startDate"
        = some (JVal.num (epochMillis (startDt.getD MIN_DATETIME)))
    ∧ jlookup (w apiKey now symbol startDt endDt needExt).params "endDate"
        = some (JVal.num (match endDt with
            | some e => epochMillis e
            | none => epochMillis now + 604800000))
    ∧ jlookup (w apiKey now symbol startDt endDt needExt).params "needExtendedHoursData"
        = (match needExt with
           | some b => some (JVal.bool b)
           | none => none)

/-! ## API key query parameter asymmetry across GET endpoints
(tda/client, whose request shapes are pinned one by one by the
assert_called_once_with expectations in tests/client_test.py) -/

/-- GET endpoints of the REST client, one constructor per client method
issuing a session GET. -/
inductive GetEndpoint where
  | getOrder : GetEndpoint
  | getOrdersByPath : GetEndpoint
  | getOrdersByQuery : GetEndpoint
  | getSavedOrder : GetEndpoint
  | getSavedOrdersByPath : GetEndpoint
  | getAccount : GetEndpoint
  | getAccounts : GetEndpoint
  | searchInstruments : GetEndpoint
  | getInstrument : GetEndpoint
  | getHoursForMultipleMarkets : GetEndpoint
  | getHoursForSingleMarket : GetEndpoint
  | getMovers : GetEndpoint
  | getOptionChain : GetEndpoint
  | getPriceHistory : GetEndpoint
  | getQuote : GetEndpoint
  | getQuotes : GetEndpoint
  | getTransaction : GetEndpoint
  | getTransactions : GetEndpoint
  | getPreferences : GetEndpoint
  | getStreamerSubscriptionKeys : GetEndpoint
  | getUserPrincipals : GetEndpoint
  | getWatchlist : GetEndpoint
  | getWatchlistsForMultipleAccounts : GetEndpoint
  | getWatchlistsForSingleAccount : GetEndpoint
deriving DecidableEq

/-- Whether the endpoint's issued GET request carries an apikey query
parameter, transcribed endpoint by endpoint from the exact params asserted
in tests/client_test.py (for example test_get_order asserts empty params,
test_get_quote asserts an apikey param, test_get_watchlist and the two
watchlist-listing tests assert empty params). -/
def sendsApikey : GetEndpoint → Bool
  | GetEndpoint.getOrder => false
  | GetEndpoint.getOrdersByPath => false
  | GetEndpoint.getOrdersByQuery => false
  | GetEndpoint.getSavedOrder => false
  | GetEndpoint.getSavedOrdersByPath => false
  | GetEndpoint.getAccount => false
  | GetEndpoint.getAccounts => false
  | GetEndpoint.getWatchlist => false
  | GetEndpoint.getWatchlistsForMultipleAccounts => false
  | GetEndpoint.getWatchlistsForSingleAccount => false
  | _ => true

/-- Exception set claimed by the spec: the order, orders-by-path/query,
saved-order, and account GETs only. -/
def inClaimedExceptionSet : GetEndpoint → Bool
  | GetEndpoint.getOrder => true
  | GetEndpoint.getOrdersByPath => true
  | GetEndpoint.getOrdersByQuery => true
  | GetEndpoint.getSavedOrder => true
  | GetEndpoint.getSavedOrdersByPath => true
  | GetEndpoint.getAccount => true
  | GetEndpoint.getAccounts => true
  | _ => false

/-- Exception set actually exhibited by the tests: the claimed set plus the
three watchlist GETs. -/
def inActualExceptionSet (e : GetEndpoint) : Bool :=
  inClaimedExceptionSet e
  || (match e with
      | GetEndpoint.getWatchlist => true
      | GetEndpoint.getWatchlistsForMultipleAccounts => true
      | GetEndpoint.getWatchlistsForSingleAccount => true
      | _ => false)

/-! ## Theorems -/

theorem jvalNeStr_eq_false_iff (v : JVal) (s : String) :
    jvalNeStr v s = false ↔ v = JVal.str s := by
  cases v <;> simp [jvalNeStr]

/-- C1: a POST /option/order body lacking the literal key `passphase` gets the
structured unauthorized payload; a body carrying `passphase` whose
`passphrase` field differs from the configured secret gets the structured
invalid-passphrase payload; and an order is placed only when the `passphrase`
field equals the configured secret, so in both rejection cases no order is
placed and no exception is thrown. -/
theorem webhook_order_auth_rejections (cfg : AppConfig) (body : JObj) :
    (hasKey body "passphase" = false →
      option_order cfg body = RouteResult.payload unauthorizedPayload)
    ∧ (∀ pv, hasKey body "passphase" = true →
        jlookup body "passphrase" = some pv →
        pv ≠ JVal.str cfg.passphrase →
        option_order cfg body = RouteResult.payload invalidPassphrasePayload)
    ∧ (∀ acct spec ack,
        option_order cfg body = RouteResult.placed acct spec ack →
        jlookup body "passphrase" = some (JVal.str cfg.passphrase)) := by
  refine ⟨?_, ?_, ?_⟩
  · intro h
    simp [option_order, h]
  · intro pv hk hlk hne
    have hb : jvalNeStr pv cfg.passphrase = true := by
      cases hb2 : jvalNeStr pv cfg.passphrase
      · exact absurd ((jvalNeStr_eq_false_iff pv cfg.passphrase).mp hb2) hne
      · rfl
    simp [option_order, hk, hlk, hb]
  · intro acct spec ack h
    by_cases hk : hasKey body "passphase" = false
    · simp [option_order, hk] at h
    · simp only [option_order, hk, if_false] at h
      cases hlk : jlookup body "passphrase" with
      | none => simp [hlk] at h
      | some pv =>
        simp only [hlk] at h
        cases hb : jvalNeStr pv cfg.passphrase with
        | true => simp [hb] at h
        | false =>
          exact congrArg some ((jvalNeStr_eq_false_iff pv cfg.passphrase).mp hb)

/-- Witness for C1 at concrete inputs: a body missing `passphase` is
rejected as unauthorized even though it spells `passphrase` correctly, and a
body carrying `passphase` with a wrong `passphrase` value is rejected as
invalid. -/
theorem webhook_order_auth_rejections_witness :
    option_order ⟨"APIKEY", "token.json", 1000, "secret"⟩
        [("passphrase", JVal.str "secret")]
      = RouteResult.payload unauthorizedPayload
    ∧ option_order ⟨"APIKEY", "token.json", 1000, "secret"⟩
        [("passphase", JVal.str "x"), ("passphrase", JVal.str "wrong")]
      = RouteResult.payload invalidPassphrasePayload :=
  ⟨(webhook_order_auth_rejections ⟨"APIKEY", "token.json", 1000, "secret"⟩
      [("passphrase", JVal.str "secret")]).1 (by rfl),
   (webhook_order_auth_rejections ⟨"APIKEY", "token.json", 1000, "secret"⟩
      [("passphase", JVal.str "x"), ("passphrase", JVal.str "wrong")]).2.1
      (JVal.str "wrong") (by rfl) (by rfl) (by simp)⟩

/-- C10: when the configured token file is absent, the webhook application
module import itself fails with the underlying Not-Found error and none of
its three routes becomes servable, whereas the trading script catches that
error and falls back to a browser login flow. -/
theorem app_import_fails_without_token_file (fs : FileSystem) (cfg : AppConfig)
    (habsent : fs cfg.token_path = none) :
    app_init fs cfg = Except.error (AuthError.fileNotFound cfg.token_path)
    ∧ servable_routes fs cfg = []
    ∧ (trade_init fs cfg).source = ClientSource.loginFlow := by
  have h1 : app_init fs cfg = Except.error (AuthError.fileNotFound cfg.token_path) := by
    simp [app_init, client_from_token_file, habsent]
  refine ⟨h1, ?_, ?_⟩
  · simp [servable_routes, h1]
  · simp [trade_init, client_from_token_file, habsent, client_from_login_flow]

/-- Witness for C10 on the empty file system. -/
theorem app_import_fails_without_token_file_witness :
    app_init (fun _ => none) ⟨"APIKEY", "token.json", 1000, "secret"⟩
      = Except.error (AuthError.fileNotFound "token.json")
    ∧ servable_routes (fun _ => none) ⟨"APIKEY", "token.json", 1000, "secret"⟩ = []
    ∧ (trade_init (fun _ => none) ⟨"APIKEY", "token.json", 1000, "secret"⟩).source
      = ClientSource.loginFlow :=
  app_import_fails_without_token_file (fun _ => none)
    ⟨"APIKEY", "token.json", 1000, "secret"⟩ rfl

/-- C2: extract_order_id fails with Unsuccessful-Order on any non-200/201
status; returns no value when the Location header is absent or does not
match the accounts/orders pattern; fails with Account-ID-Mismatch when the
embedded account ID differs numerically from the account ID the Utils
instance holds (string and integer forms compared as values); and otherwise
returns the parsed integer order ID. -/
theorem extract_order_id_spec (u : Utils) (r : HttpResponse) :
    (r.status_code ≠ 200 → r.status_code ≠ 201 →
      extract_order_id u r
        = Except.error (UtilsError.unsuccessfulOrder "order not successful"))
    ∧ ((r.status_code = 200 ∨ r.status_code = 201) →
        jlookup r.headers "Location" = none →
        extract_order_id u r = Except.ok none)
    ∧ (∀ loc, (r.status_code = 200 ∨ r.status_code = 201) →
        jlookup r.headers "Location" = some loc →
        parseOrderLocation loc = none →
        extract_order_id u r = Except.ok none)
    ∧ (∀ loc acct oid own, (r.status_code = 200 ∨ r.status_code = 201) →
        jlookup r.headers "Location" = some loc →
        parseOrderLocation loc = some (acct, oid) →
        u.account_id.toNatOpt = some own →
        acct ≠ own →
        extract_order_id u r
          = Except.error (UtilsError.accountIdMismatch
              "order request account ID != Utils.account_id"))
    ∧ (∀ loc acct oid, (r.status_code = 200 ∨ r.status_code = 201) →
        jlookup r.headers "Location" = some loc →
        parseOrderLocation loc = some (acct, oid) →
        u.account_id.toNatOpt = some acct →
        extract_order_id u r = Except.ok (some oid)) := by
  have hok : (r.status_code = 200 ∨ r.status_code = 201) →
      ¬(r.status_code ≠ 200 ∧ r.status_code ≠ 201) := by
    rintro (h | h) ⟨h1, h2⟩
    · exact h1 h
    · exact h2 h
  refine ⟨?_, ?_, ?_, ?_, ?_⟩
  · intro h1 h2
    simp [extract_order_id, h1, h2]
  · intro hs hloc
    simp [extract_order_id, hok hs, hloc]
  · intro loc hs hloc hpat
    simp [extract_order_id, hok hs, hloc, hpat]
  · intro loc acct oid own hs hloc hpat hown hne
    simp [extract_order_id, hok hs, hloc, hpat, hown, hne]
  · intro loc acct oid hs hloc hpat hown
    simp [extract_order_id, hok hs, hloc, hpat, hown]

/-- Witness for C2 replaying the concrete vectors of utils_test.py: a 403
response fails with Unsuccessful-Order; a 200 response whose Location embeds
account 10000 and order 10100 yields order ID 10100 for a Utils bound to
account 10000, including when the account was supplied as the string
"10000"; a Location embedding account 10001 fails with
Account-ID-Mismatch. -/
theorem extract_order_id_spec_witness :
    extract_order_id ⟨AcctId.int 10000⟩ ⟨403, []⟩
      = Except.error (UtilsError.unsuccessfulOrder "order not successful")
    ∧ extract_order_id ⟨AcctId.int 10000⟩
        ⟨200, [("Location",
          "https://api.tdameritrade.com/v1/accounts/10000/orders/10100")]⟩
      = Except.ok (some 10100)
    ∧ extract_order_id ⟨AcctId.str "10000"⟩
        ⟨200, [("Location",
          "https://api.tdameritrade.com/v1/accounts/10000/orders/10100")]⟩
      = Except.ok (some 10100)
    ∧ extract_order_id ⟨AcctId.int 10000⟩
        ⟨200, [("Location",
          "https://api.tdameritrade.com/v1/accounts/10001/orders/456")]⟩
      = Except.error (UtilsError.accountIdMismatch
          "order request account ID != Utils.account_id") :=
  ⟨(extract_order_id_spec ⟨AcctId.int 10000⟩ ⟨403, []⟩).1
      (by decide) (by decide),
   (extract_order_id_spec ⟨AcctId.int 10000⟩
      ⟨200, [("Location",
        "https://api.tdameritrade.com/v1/accounts/10000/orders/10100")]⟩).2.2.2.2
      "https://api.tdameritrade.com/v1/accounts/10000/orders/10100"
      10000 10100 (Or.inl rfl) (by decide) (by decide) (by decide),
   (extract_order_id_spec ⟨AcctId.str "10000"⟩
      ⟨200, [("Location",
        "https://api.tdameritrade.com/v1/accounts/10000/orders/10100")]⟩).2.2.2.2
      "https://api.tdameritrade.com/v1/accounts/10000/orders/10100"
      10000 10100 (Or.inl rfl) (by decide) (by decide) (by decide),
   (extract_order_id_spec ⟨AcctId.int 10000⟩
      ⟨200, [("Location",
        "https://api.tdameritrade.com/v1/accounts/10001/orders/456")]⟩).2.2.2.1
      "https://api.tdameritrade.com/v1/accounts/10001/orders/456"
      10001 456 10000 (Or.inl rfl) (by decide) (by decide) (by decide) (by decide)⟩

theorem splitOnChar_of_not_mem {c : Char} :
    ∀ l : List Char, c ∉ l → splitOnChar c l = [l] := by
  intro l
  induction l with
  | nil => intro _; rfl
  | cons x xs ih =>
    intro h
    have hx : ¬x = c := fun hxc => h (hxc ▸ List.mem_cons_self x xs)
    have hxs : c ∉ xs := fun hc => h (List.mem_cons_of_mem x hc)
    simp [splitOnChar, ih hxs, hx]

theorem endsWithStr_suffix_mem {k s : String} (h : endsWithStr k s = true) :
    ∀ c, c ∈ s.data → c ∈ k.data := by
  intro c hc
  have hdrop : k.data.drop (k.data.length - s.data.length) = s.data := by
    simpa [endsWithStr] using h
  have hsub : s.data ⊆ k.data := by
    have := List.drop_suffix (k.data.length - s.data.length) k.data
    rw [hdrop] at this
    exact this.subset
  exact hsub hc

/-- C6: normalization of an API key already ending in `@AMER.OAUTHAP`
returns it unchanged with no log output; normalization of a key with no
suffix returns the key with `@AMER.OAUTHAP` appended and emits exactly the
appending info log; and normalization of `API_KEY@AMER` returns
`API_KEY@AMER.OAUTHAP` emitting the nonstandard-suffix warning followed by
the appending info log, in that order. -/
theorem normalize_api_key_spec :
    (∀ k, endsWithStr k "@AMER.OAUTHAP" = true → normalize_api_key k = (k, []))
    ∧ (∀ k, '@' ∉ k.data →
        normalize_api_key k = (k ++ "@AMER.OAUTHAP",
          [LogEvent.info "Appending @AMER.OAUTHAP to API key"]))
    ∧ normalize_api_key "API_KEY@AMER" = ("API_KEY@AMER.OAUTHAP",
        [LogEvent.warning "API key ends in nonstandard suffix \"AMER\". Ignoring",
         LogEvent.info "Appending @AMER.OAUTHAP to API key"]) := by
  refine ⟨?_, ?_, by decide⟩
  · intro k h
    simp [normalize_api_key, h]
  · intro k h
    have hends : endsWithStr k "@AMER.OAUTHAP" = false := by
      cases he : endsWithStr k "@AMER.OAUTHAP"
      · rfl
      · exact absurd (endsWithStr_suffix_mem he '@' (by decide)) h
    simp [normalize_api_key, hends, splitOnChar_of_not_mem k.data h]

/-- Witness for C6 at concrete keys: the canonical key is unchanged with no
logs and the bare key gets the suffix appended with the info log. -/
theorem normalize_api_key_spec_witness :
    normalize_api_key "API_KEY@AMER.OAUTHAP" = ("API_KEY@AMER.OAUTHAP", [])
    ∧ normalize_api_key "API_KEY" = ("API_KEY@AMER.OAUTHAP",
        [LogEvent.info "Appending @AMER.OAUTHAP to API key"]) :=
  ⟨normalize_api_key_spec.1 "API_KEY@AMER.OAUTHAP" (by decide),
   normalize_api_key_spec.2.1 "API_KEY" (by decide)⟩

/-- C7: the record with only a token key is legacy and not metadata-aware
with timestamp absent; the record wrapping a token with integer timestamp
1613745082 is metadata-aware and not legacy with exactly that timestamp; and
the record whose creation_timestamp value is the string "yes" is neither
shape, with timestamp reported absent rather than a failure. -/
theorem token_metadata_classification :
    (is_legacy_token [("token", JVal.str "yes")] = true
      ∧ is_metadata_aware_token [("token", JVal.str "yes")] = false
      ∧ token_creation_timestamp [("token", JVal.str "yes")] = none)
    ∧ (is_metadata_aware_token
          [("creation_timestamp", JVal.num 1613745082),
           ("token", JVal.obj [("token", JVal.str "yes")])] = true
      ∧ is_legacy_token
          [("creation_timestamp", JVal.num 1613745082),
           ("token", JVal.obj [("token", JVal.str "yes")])] = false
      ∧ token_creation_timestamp
          [("creation_timestamp", JVal.num 1613745082),
           ("token", JVal.obj [("token", JVal.str "yes")])] = some 1613745082)
    ∧ (is_legacy_token [("creation_timestamp", JVal.str "yes")] = false
      ∧ is_metadata_aware_token [("creation_timestamp", JVal.str "yes")] = false
      ∧ token_creation_timestamp [("creation_timestamp", JVal.str "yes")] = none) := by
  decide

/-- C8: on token refresh, a token loaded in legacy shape is written back as
a metadata-aware record with a null creation_timestamp wrapping the new
token, and a token loaded in metadata-aware shape is written back with its
original creation_timestamp unchanged wrapping the new token. -/
theorem update_callback_preserves_shape (loaded : JObj) (newToken : JVal) :
    (is_legacy_token loaded = true →
      update_token_record loaded newToken
        = [("creation_timestamp", JVal.null), ("token", newToken)])
    ∧ (∀ n, token_creation_timestamp loaded = some n →
      update_token_record loaded newToken
        = [("creation_timestamp", JVal.num n), ("token", newToken)]) := by
  constructor
  · intro h
    have hk : jlookup loaded "creation_timestamp" = none := by
      cases hj : jlookup loaded "creation_timestamp" with
      | none => rfl
      | some v => simp [is_legacy_token, hasKey, hj] at h
    simp [update_token_record, wrapped_token_write, from_loaded_token,
      token_creation_timestamp, is_metadata_aware_token, hk]
  · intro n hts
    simp [update_token_record, wrapped_token_write, from_loaded_token, hts]

/-- Witness for C8 replaying the auth tests: a legacy-loaded token is
persisted with a null timestamp around the refreshed token, and a
metadata-aware-loaded token keeps its 1613745082 timestamp around the
refreshed token. -/
theorem update_callback_preserves_shape_witness :
    update_token_record [("token", JVal.str "yes")]
        (JVal.obj [("updated", JVal.str "token")])
      = [("creation_timestamp", JVal.null),
         ("token", JVal.obj [("updated", JVal.str "token")])]
    ∧ update_token_record
        [("creation_timestamp", JVal.num 1613745082),
         ("token", JVal.obj [("token", JVal.str "yes")])]
        (JVal.obj [("token", JVal.str "yes")])
      = [("creation_timestamp", JVal.num 1613745082),
         ("token", JVal.obj [("token", JVal.str "yes")])] :=
  ⟨(update_callback_preserves_shape [("token", JVal.str "yes")]
      (JVal.obj [("updated", JVal.str "token")])).1 (by decide),
   (update_callback_preserves_shape
      [("creation_timestamp", JVal.num 1613745082),
       ("token", JVal.obj [("token", JVal.str "yes")])]
      (JVal.obj [("token", JVal.str "yes")])).2 1613745082 (by decide)⟩

/-- C3: with enforcement on, a non-member value fails with an
Invalid-Parameter error naming the fully qualified expected member in the
form module.EnumType.EXAMPLE_MEMBER, while a member converts to its wire
value; with enforcement off, any value passes through unchanged. -/
theorem convert_enum_spec (E : PyEnumType) (v : ArgVal) :
    (∀ m0 w0 rest, E.members = (m0, w0) :: rest →
      isEnumMember E v = false →
      convert_enum true E v
        = Except.error (ClientError.invalidParameter
            (E.module ++ "." ++ E.ename ++ "." ++ m0)))
    ∧ (∀ tn mn w, v = ArgVal.member tn mn → tn = enumFullName E →
        jlookup E.members mn = some w →
        convert_enum true E v = Except.ok (ArgVal.raw w))
    ∧ convert_enum false E v = Except.ok v := by
  refine ⟨?_, ?_, by simp [convert_enum]⟩
  · intro m0 w0 rest hm h
    cases v with
    | raw w =>
      simp [convert_enum, exampleMemberName, enumFullName, hm]
    | member tn mn =>
      by_cases ht : tn = E.module ++ "." ++ E.ename
      · have hkey : hasKey E.members mn = false := by
          simpa [isEnumMember, enumFullName, ht] using h
        have hlk : jlookup ((m0, w0) :: rest) mn = none := by
          rw [← hm]
          cases hj : jlookup E.members mn with
          | none => rfl
          | some w => simp [hasKey, hj] at hkey
        simp [convert_enum, enumFullName, ht, hm, hlk, exampleMemberName]
      · simp [convert_enum, enumFullName, ht, hm, exampleMemberName]
  · intro tn mn w hv ht hlk
    subst hv
    simp [convert_enum, ht, hlk]

/-- Witness for C3 replaying the EnumEnforcer tests with a two-member test
enumeration: a raw string that spells a member name is rejected with the
fully qualified example member, an actual member converts to its wire value,
and with enforcement off the raw string passes through unchanged. -/
theorem convert_enum_spec_witness :
    convert_enum true
        ⟨"tests.utils_test", "TestEnum",
         [("VALUE_1", JVal.num 1), ("VALUE_2", JVal.num 2)]⟩
        (ArgVal.raw (JVal.str "VALUE_1"))
      = Except.error (ClientError.invalidParameter "tests.utils_test.TestEnum.VALUE_1")
    ∧ convert_enum true
        ⟨"tests.utils_test", "TestEnum",
         [("VALUE_1", JVal.num 1), ("VALUE_2", JVal.num 2)]⟩
        (ArgVal.member "tests.utils_test.TestEnum" "VALUE_1")
      = Except.ok (ArgVal.raw (JVal.num 1))
    ∧ convert_enum false
        ⟨"tests.utils_test", "TestEnum",
         [("VALUE_1", JVal.num 1), ("VALUE_2", JVal.num 2)]⟩
        (ArgVal.raw (JVal.str "VALUE_1"))
      = Except.ok (ArgVal.raw (JVal.str "VALUE_1")) :=
  ⟨(convert_enum_spec
      ⟨"tests.utils_test", "TestEnum",
       [("VALUE_1", JVal.num 1), ("VALUE_2", JVal.num 2)]⟩
      (ArgVal.raw (JVal.str "VALUE_1"))).1
      "VALUE_1" (JVal.num 1) [("VALUE_2", JVal.num 2)] rfl (by decide),
   (convert_enum_spec
      ⟨"tests.utils_test", "TestEnum",
       [("VALUE_1", JVal.num 1), ("VALUE_2", JVal.num 2)]⟩
      (ArgVal.member "tests.utils_test.TestEnum" "VALUE_1")).2.1
      "tests.utils_test.TestEnum" "VALUE_1" (JVal.num 1) rfl (by decide) (by rfl),
   (convert_enum_spec
      ⟨"tests.utils_test", "TestEnum",
       [("VALUE_1", JVal.num 1), ("VALUE_2", JVal.num 2)]⟩
      (ArgVal.raw (JVal.str "VALUE_1"))).2.2⟩

/-- C4: with neither date bound supplied, get_orders_by_path and
get_orders_by_query default fromEnteredTime to exactly
1971-01-01T00:00:00+0000 and toEnteredTime to the current UTC time rendered
with second precision and the +0000 offset; supplying both status and
statuses fails with Invalid-Argument and no request is built. -/
theorem orders_date_window_defaults (now : DateTime) (accountId : Nat) :
    jlookup (requestParams
        (get_orders_by_path now accountId none none none none none))
        "fromEnteredTime"
      = some (JVal.str "1971-01-01T00:00:00+0000")
    ∧ jlookup (requestParams
        (get_orders_by_path now accountId none none none none none))
        "toEnteredTime"
      = some (JVal.str (isoDatetimeFormat now))
    ∧ jlookup (requestParams
        (get_orders_by_query now none none none none none)) "fromEnteredTime"
      = some (JVal.str "1971-01-01T00:00:00+0000")
    ∧ jlookup (requestParams
        (get_orders_by_query now none none none none none)) "toEnteredTime"
      = some (JVal.str (isoDatetimeFormat now))
    ∧ isoDatetimeFormat ⟨2020, 1, 2, 3, 4, 5⟩ = "2020-01-02T03:04:05+0000"
    ∧ (∀ s l fromEntered toEntered maxResults,
        get_orders_by_path now accountId fromEntered toEntered maxResults
            (some s) (some l)
          = Except.error (ClientError.invalidArgument
              "at most one of status or statuses may be set"))
    ∧ (∀ s l fromEntered toEntered maxResults,
        get_orders_by_query now fromEntered toEntered maxResults
            (some s) (some l)
          = Except.error (ClientError.invalidArgument
              "at most one of status or statuses may be set")) :=
  ⟨rfl, rfl, rfl, rfl, rfl,
   fun s l fromEntered toEntered maxResults => by
     simp [get_orders_by_path],
   fun s l fromEntered toEntered maxResults => by
     simp [get_orders_by_query]⟩

/-- C5: each price-history convenience wrapper pins exactly the quadruple
assigned to it in the table of spec section 4.5, defaults startDate to the
epoch milliseconds of 1971-01-01T00:00:00 (31536000000) and endDate to the
epoch milliseconds of now plus seven days unless overridden, and includes
needExtendedHoursData only when the caller supplies a non-absent value. -/
theorem price_history_wrapper_shapes :
    WrapperShape get_price_history_every_minute "day" 1 "minute" 1
    ∧ WrapperShape get_price_history_every_five_minutes "day" 1 "minute" 5
    ∧ WrapperShape get_price_history_every_ten_minutes "day" 1 "minute" 10
    ∧ WrapperShape get_price_history_every_fifteen_minutes "day" 1 "minute" 15
    ∧ WrapperShape get_price_history_every_thirty_minutes "day" 1 "minute" 30
    ∧ WrapperShape get_price_history_every_day "year" 20 "daily" 1
    ∧ WrapperShape get_price_history_every_week "year" 20 "weekly" 1
    ∧ epochMillis MIN_DATETIME = 31536000000 := by
  refine ⟨?_, ?_, ?_, ?_, ?_, ?_, ?_, by decide⟩
  all_goals
    intro apiKey now symbol startDt endDt needExt
    exact ⟨rfl, rfl, rfl, rfl, rfl, rfl, by cases needExt <;> rfl⟩

/-- C9 counterexample: the claim that every GET endpoint outside the four
order/saved-order/account families sends an apikey parameter is false at
get_watchlist, whose test asserts an empty params mapping. -/
theorem apikey_asymmetry_counterexample :
    ¬(∀ e : GetEndpoint, sendsApikey e = !(inClaimedExceptionSet e)) := fun h =>
  by simpa [sendsApikey, inClaimedExceptionSet] using h GetEndpoint.getWatchlist

/-- C9 amended: every GET endpoint sends an apikey query parameter except
the order, orders-by-path/query, saved-order, account, and watchlist GETs,
which issue their requests with no apikey parameter. -/
theorem apikey_asymmetry_amended :
    ∀ e : GetEndpoint, sendsApikey e = !(inActualExceptionSet e) := by
  intro e
  cases e <;> rfl

end TdaWebhooks

